import Mathlib

/-!
# Verification of the CLIP_benchmark dataset builder

A shallow embedding of `clip_benchmark/datasets/builder.py`: the dataset
resolution dispatcher `build_dataset`, the curated remote-tabular dispatcher
`build_vtab_dataset`, the task decomposer `_extract_task`, the collation
selector `get_dataset_collate_fn` with `image_captions_collate_fn`, the
prompt-template lookup `get_zeroshot_classification_templates`, and the static
`classnames` and `zeroshot_classification_templates` tables.

External dataset backends (torchvision, tensorflow-datasets, task_adaptation)
only ever get constructed here; their internals are out of scope, so a
constructed backend is recorded as a tag in the returned handle, together with
the normalization the builder applies to it (class-name override, flowers
label-decrement transform, forwarded keyword options). Filesystem probes
(`os.path.exists`) are modelled by an environment function `fs`, and the
label of the first sample of the torchvision Flowers102 backend (probed by
`build_dataset` at construction time) by an environment field.
-/

namespace ClipBenchmark

/-! ### Python string primitives used by builder.py

`str.split(sep)` is only ever called with the single-character separators
`"/"` and `"_"`, so it is embedded for a character separator: Python's split
keeps empty pieces, and `"".split(sep) == [""]`. -/

/-- Python `str.split(sep)` on character lists, for a one-character `sep`:
`"a_b".split("_") = ["a","b"]`, `"".split("_") = [""]`, `"_".split("_") = ["","" ]`. -/
def py_split_char (sep : Char) (l : List Char) : List (List Char) :=
  match l with
  | [] => [[]]
  | a :: rest =>
    let r := py_split_char sep rest
    if a = sep then [] :: r else (a :: r.headD []) :: r.tail

/-- Python `sep.join(pieces)` on character lists, for a one-character `sep`. -/
def join_char (sep : Char) : List (List Char) → List Char
  | [] => []
  | [x] => x
  | x :: xs => x ++ sep :: join_char sep xs

/-- Python `s.split(sep)` for a one-character separator, on strings. -/
def py_split (sep : Char) (s : String) : List String :=
  (py_split_char sep s.data).map fun l => ⟨l⟩

/-- Python `sep.join(xs)` for a one-character separator, on strings. -/
def py_join (sep : Char) (xs : List String) : String :=
  ⟨join_char sep (xs.map String.data)⟩

/-- Python `s.startswith(p)`. -/
def py_startswith (s p : String) : Bool :=
  p.data.isPrefixOf s.data

/-- `_extract_task` of builder.py: drop the segment before the first `"_"` and
join the rest back with `"_"` (`"kitti_count_all" ↦ "count_all"`). -/
def extract_task (dataset_name : String) : String :=
  py_join '_' (py_split '_' dataset_name).tail
/-! ### Label vocabulary store: the `classnames` table of builder.py -/

/-- `classnames["flowers"]` of builder.py (102 entries). -/
def classnames_flowers : List String := [
  "pink primrose", "hard-leaved pocket orchid", "canterbury bells", "sweet pea",
  "english marigold", "tiger lily", "moon orchid", "bird of paradise",
  "monkshood", "globe thistle", "snapdragon", "colt's foot",
  "king protea", "spear thistle", "yellow iris", "globe flower",
  "purple coneflower", "peruvian lily", "balloon flower", "giant white arum lily",
  "fire lily", "pincushion flower", "fritillary", "red ginger",
  "grape hyacinth", "corn poppy", "prince of wales feathers", "stemless gentian",
  "artichoke", "sweet william", "carnation", "garden phlox",
  "love in the mist", "mexican aster", "alpine sea holly", "ruby-lipped cattleya",
  "cape flower", "great masterwort", "siam tulip", "lenten rose",
  "barbeton daisy", "daffodil", "sword lily", "poinsettia",
  "bolero deep blue", "wallflower", "marigold", "buttercup",
  "oxeye daisy", "common dandelion", "petunia", "wild pansy",
  "primula", "sunflower", "pelargonium", "bishop of llandaff",
  "gaura", "geranium", "orange dahlia", "pink and yellow dahlia",
  "cautleya spicata", "japanese anemone", "black-eyed susan", "silverbush",
  "californian poppy", "osteospermum", "spring crocus", "bearded iris",
  "windflower", "tree poppy", "gazania", "azalea",
  "water lily", "rose", "thorn apple", "morning glory",
  "passion flower", "lotus", "toad lily", "anthurium",
  "frangipani", "clematis", "hibiscus", "columbine",
  "desert-rose", "tree mallow", "magnolia", "cyclamen",
  "watercress", "canna lily", "hippeastrum", "bee balm",
  "air plant", "foxglove", "bougainvillea", "camellia",
  "mallow", "mexican petunia", "bromelia", "blanket flower",
  "trumpet creeper", "blackberry lily"]

/-- `classnames["gtsrb"]` of builder.py (43 entries). -/
def classnames_gtsrb : List String := [
  "red and white circle 20 kph speed limit", "red and white circle 30 kph speed limit", "red and white circle 50 kph speed limit", "red and white circle 60 kph speed limit",
  "red and white circle 70 kph speed limit", "red and white circle 80 kph speed limit", "end / de-restriction of 80 kph speed limit", "red and white circle 100 kph speed limit",
  "red and white circle 120 kph speed limit", "red and white circle red car and black car no passing", "red and white circle red truck and black car no passing", "red and white triangle road intersection warning",
  "white and yellow diamond priority road", "red and white upside down triangle yield right-of-way", "stop", "empty red and white circle",
  "red and white circle no truck entry", "red circle with white horizonal stripe no entry", "red and white triangle with exclamation mark warning", "red and white triangle with black left curve approaching warning",
  "red and white triangle with black right curve approaching warning", "red and white triangle with black double curve approaching warning", "red and white triangle rough / bumpy road warning", "red and white triangle car skidding / slipping warning",
  "red and white triangle with merging / narrow lanes warning", "red and white triangle with person digging / construction / road work warning", "red and white triangle with traffic light approaching warning", "red and white triangle with person walking warning",
  "red and white triangle with child and person walking warning", "red and white triangle with bicyle warning", "red and white triangle with snowflake / ice warning", "red and white triangle with deer warning",
  "white circle with gray strike bar no speed limit", "blue circle with white right turn arrow mandatory", "blue circle with white left turn arrow mandatory", "blue circle with white forward arrow mandatory",
  "blue circle with white forward or right turn arrow mandatory", "blue circle with white forward or left turn arrow mandatory", "blue circle with white keep right arrow mandatory", "blue circle with white keep left arrow mandatory",
  "blue circle with white arrows indicating a traffic circle", "white circle with gray strike bar indicating no passing for cars has ended", "white circle with gray strike bar indicating no passing for trucks has ended"]

/-- `classnames["country211"]` of builder.py (211 entries). -/
def classnames_country211 : List String := [
  "Andorra", "United Arab Emirates", "Afghanistan", "Antigua and Barbuda",
  "Anguilla", "Albania", "Armenia", "Angola",
  "Antarctica", "Argentina", "Austria", "Australia",
  "Aruba", "Aland Islands", "Azerbaijan", "Bosnia and Herzegovina",
  "Barbados", "Bangladesh", "Belgium", "Burkina Faso",
  "Bulgaria", "Bahrain", "Benin", "Bermuda",
  "Brunei Darussalam", "Bolivia", "Bonaire, Saint Eustatius and Saba", "Brazil",
  "Bahamas", "Bhutan", "Botswana", "Belarus",
  "Belize", "Canada", "DR Congo", "Central African Republic",
  "Switzerland", "Cote d'Ivoire", "Cook Islands", "Chile",
  "Cameroon", "China", "Colombia", "Costa Rica",
  "Cuba", "Cabo Verde", "Curacao", "Cyprus",
  "Czech Republic", "Germany", "Denmark", "Dominica",
  "Dominican Republic", "Algeria", "Ecuador", "Estonia",
  "Egypt", "Spain", "Ethiopia", "Finland",
  "Fiji", "Falkland Islands", "Faeroe Islands", "France",
  "Gabon", "United Kingdom", "Grenada", "Georgia",
  "French Guiana", "Guernsey", "Ghana", "Gibraltar",
  "Greenland", "Gambia", "Guadeloupe", "Greece",
  "South Georgia and South Sandwich Is.", "Guatemala", "Guam", "Guyana",
  "Hong Kong", "Honduras", "Croatia", "Haiti",
  "Hungary", "Indonesia", "Ireland", "Israel",
  "Isle of Man", "India", "Iraq", "Iran",
  "Iceland", "Italy", "Jersey", "Jamaica",
  "Jordan", "Japan", "Kenya", "Kyrgyz Republic",
  "Cambodia", "St. Kitts and Nevis", "North Korea", "South Korea",
  "Kuwait", "Cayman Islands", "Kazakhstan", "Laos",
  "Lebanon", "St. Lucia", "Liechtenstein", "Sri Lanka",
  "Liberia", "Lithuania", "Luxembourg", "Latvia",
  "Libya", "Morocco", "Monaco", "Moldova",
  "Montenegro", "Saint-Martin", "Madagascar", "Macedonia",
  "Mali", "Myanmar", "Mongolia", "Macau",
  "Martinique", "Mauritania", "Malta", "Mauritius",
  "Maldives", "Malawi", "Mexico", "Malaysia",
  "Mozambique", "Namibia", "New Caledonia", "Nigeria",
  "Nicaragua", "Netherlands", "Norway", "Nepal",
  "New Zealand", "Oman", "Panama", "Peru",
  "French Polynesia", "Papua New Guinea", "Philippines", "Pakistan",
  "Poland", "Puerto Rico", "Palestine", "Portugal",
  "Palau", "Paraguay", "Qatar", "Reunion",
  "Romania", "Serbia", "Russia", "Rwanda",
  "Saudi Arabia", "Solomon Islands", "Seychelles", "Sudan",
  "Sweden", "Singapore", "St. Helena", "Slovenia",
  "Svalbard and Jan Mayen Islands", "Slovakia", "Sierra Leone", "San Marino",
  "Senegal", "Somalia", "South Sudan", "El Salvador",
  "Sint Maarten", "Syria", "Eswatini", "Togo",
  "Thailand", "Tajikistan", "Timor-Leste", "Turkmenistan",
  "Tunisia", "Tonga", "Turkey", "Trinidad and Tobago",
  "Taiwan", "Tanzania", "Ukraine", "Uganda",
  "United States", "Uruguay", "Uzbekistan", "Vatican",
  "Venezuela", "British Virgin Islands", "United States Virgin Islands", "Vietnam",
  "Vanuatu", "Samoa", "Kosovo", "Yemen",
  "South Africa", "Zambia", "Zimbabwe"]

/-- `classnames["eurosat"]` of builder.py (10 entries). -/
def classnames_eurosat : List String := [
  "annual crop land", "forest", "brushland or shrubland", "highway or road",
  "industrial buildings or commercial buildings", "pasture land", "permanent crop land", "residential buildings or homes or apartments",
  "river", "lake or sea"]

/-- `classnames["fer2013"]` of builder.py (7 entries). -/
def classnames_fer2013 : List String := [
  "angry", "disgusted", "fearful", "happy",
  "neutral", "sad", "surprised"]

/-- `classnames["caltech101"]` of builder.py (102 entries). -/
def classnames_caltech101 : List String := [
  "background", "off-center face", "centered face", "leopard",
  "motorbike", "accordion", "airplane", "anchor",
  "ant", "barrel", "bass", "beaver",
  "binocular", "bonsai", "brain", "brontosaurus",
  "buddha", "butterfly", "camera", "cannon",
  "side of a car", "ceiling fan", "cellphone", "chair",
  "chandelier", "body of a cougar cat", "face of a cougar cat", "crab",
  "crayfish", "crocodile", "head of a  crocodile", "cup",
  "dalmatian", "dollar bill", "dolphin", "dragonfly",
  "electric guitar", "elephant", "emu", "euphonium",
  "ewer", "ferry", "flamingo", "head of a flamingo",
  "garfield", "gerenuk", "gramophone", "grand piano",
  "hawksbill", "headphone", "hedgehog", "helicopter",
  "ibis", "inline skate", "joshua tree", "kangaroo",
  "ketch", "lamp", "laptop", "llama",
  "lobster", "lotus", "mandolin", "mayfly",
  "menorah", "metronome", "minaret", "nautilus",
  "octopus", "okapi", "pagoda", "panda",
  "pigeon", "pizza", "platypus", "pyramid",
  "revolver", "rhino", "rooster", "saxophone",
  "schooner", "scissors", "scorpion", "sea horse",
  "snoopy (cartoon beagle)", "soccer ball", "stapler", "starfish",
  "stegosaurus", "stop sign", "strawberry", "sunflower",
  "tick", "trilobite", "umbrella", "watch",
  "water lilly", "wheelchair", "wild cat", "windsor chair",
  "wrench", "yin and yang symbol"]

/-- `classnames["caltech101_vtab"]` of builder.py (102 entries). -/
def classnames_caltech101_vtab : List String := [
  "accordion", "airplane", "anchor", "ant",
  "background", "barrel", "bass", "beaver",
  "binocular", "bonsai", "brain", "brontosaurus",
  "buddha", "butterfly", "camera", "cannon",
  "side of a car", "ceiling fan", "cellphone", "chair",
  "chandelier", "body of a cougar cat", "face of a cougar cat", "crab",
  "crayfish", "crocodile", "head of a  crocodile", "cup",
  "dalmatian", "dollar bill", "dolphin", "dragonfly",
  "electric guitar", "elephant", "emu", "euphonium",
  "ewer", "off-center face", "centered face", "ferry",
  "flamingo", "head of a flamingo", "garfield", "gerenuk",
  "gramophone", "grand piano", "hawksbill", "headphone",
  "hedgehog", "helicopter", "ibis", "inline skate",
  "joshua tree", "kangaroo", "ketch", "lamp",
  "laptop", "leopard", "llama", "lobster",
  "lotus", "mandolin", "mayfly", "menorah",
  "metronome", "minaret", "motorbike", "nautilus",
  "octopus", "okapi", "pagoda", "panda",
  "pigeon", "pizza", "platypus", "pyramid",
  "revolver", "rhino", "rooster", "saxophone",
  "schooner", "scissors", "scorpion", "sea horse",
  "snoopy (cartoon beagle)", "soccer ball", "stapler", "starfish",
  "stegosaurus", "stop sign", "strawberry", "sunflower",
  "tick", "trilobite", "umbrella", "watch",
  "water lilly", "wheelchair", "wild cat", "windsor chair",
  "wrench", "yin and yang symbol"]

/-- `classnames["imagenet1k"]` of builder.py (1000 entries). -/
def classnames_imagenet1k : List String := [
  "tench", "goldfish", "great white shark", "tiger shark",
  "hammerhead shark", "electric ray", "stingray", "rooster",
  "hen", "ostrich", "brambling", "goldfinch",
  "house finch", "junco", "indigo bunting", "American robin",
  "bulbul", "jay", "magpie", "chickadee",
  "American dipper", "kite (bird of prey)", "bald eagle", "vulture",
  "great grey owl", "fire salamander", "smooth newt", "newt",
  "spotted salamander", "axolotl", "American bullfrog", "tree frog",
  "tailed frog", "loggerhead sea turtle", "leatherback sea turtle", "mud turtle",
  "terrapin", "box turtle", "banded gecko", "green iguana",
  "Carolina anole", "desert grassland whiptail lizard", "agama", "frilled-necked lizard",
  "alligator lizard", "Gila monster", "European green lizard", "chameleon",
  "Komodo dragon", "Nile crocodile", "American alligator", "triceratops",
  "worm snake", "ring-necked snake", "eastern hog-nosed snake", "smooth green snake",
  "kingsnake", "garter snake", "water snake", "vine snake",
  "night snake", "boa constrictor", "African rock python", "Indian cobra",
  "green mamba", "sea snake", "Saharan horned viper", "eastern diamondback rattlesnake",
  "sidewinder rattlesnake", "trilobite", "harvestman", "scorpion",
  "yellow garden spider", "barn spider", "European garden spider", "southern black widow",
  "tarantula", "wolf spider", "tick", "centipede",
  "black grouse", "ptarmigan", "ruffed grouse", "prairie grouse",
  "peafowl", "quail", "partridge", "african grey parrot",
  "macaw", "sulphur-crested cockatoo", "lorikeet", "coucal",
  "bee eater", "hornbill", "hummingbird", "jacamar",
  "toucan", "duck", "red-breasted merganser", "goose",
  "black swan", "tusker", "echidna", "platypus",
  "wallaby", "koala", "wombat", "jellyfish",
  "sea anemone", "brain coral", "flatworm", "nematode",
  "conch", "snail", "slug", "sea slug",
  "chiton", "chambered nautilus", "Dungeness crab", "rock crab",
  "fiddler crab", "red king crab", "American lobster", "spiny lobster",
  "crayfish", "hermit crab", "isopod", "white stork",
  "black stork", "spoonbill", "flamingo", "little blue heron",
  "great egret", "bittern bird", "crane bird", "limpkin",
  "common gallinule", "American coot", "bustard", "ruddy turnstone",
  "dunlin", "common redshank", "dowitcher", "oystercatcher",
  "pelican", "king penguin", "albatross", "grey whale",
  "killer whale", "dugong", "sea lion", "Chihuahua",
  "Japanese Chin", "Maltese", "Pekingese", "Shih Tzu",
  "King Charles Spaniel", "Papillon", "toy terrier", "Rhodesian Ridgeback",
  "Afghan Hound", "Basset Hound", "Beagle", "Bloodhound",
  "Bluetick Coonhound", "Black and Tan Coonhound", "Treeing Walker Coonhound", "English foxhound",
  "Redbone Coonhound", "borzoi", "Irish Wolfhound", "Italian Greyhound",
  "Whippet", "Ibizan Hound", "Norwegian Elkhound", "Otterhound",
  "Saluki", "Scottish Deerhound", "Weimaraner", "Staffordshire Bull Terrier",
  "American Staffordshire Terrier", "Bedlington Terrier", "Border Terrier", "Kerry Blue Terrier",
  "Irish Terrier", "Norfolk Terrier", "Norwich Terrier", "Yorkshire Terrier",
  "Wire Fox Terrier", "Lakeland Terrier", "Sealyham Terrier", "Airedale Terrier",
  "Cairn Terrier", "Australian Terrier", "Dandie Dinmont Terrier", "Boston Terrier",
  "Miniature Schnauzer", "Giant Schnauzer", "Standard Schnauzer", "Scottish Terrier",
  "Tibetan Terrier", "Australian Silky Terrier", "Soft-coated Wheaten Terrier", "West Highland White Terrier",
  "Lhasa Apso", "Flat-Coated Retriever", "Curly-coated Retriever", "Golden Retriever",
  "Labrador Retriever", "Chesapeake Bay Retriever", "German Shorthaired Pointer", "Vizsla",
  "English Setter", "Irish Setter", "Gordon Setter", "Brittany dog",
  "Clumber Spaniel", "English Springer Spaniel", "Welsh Springer Spaniel", "Cocker Spaniel",
  "Sussex Spaniel", "Irish Water Spaniel", "Kuvasz", "Schipperke",
  "Groenendael dog", "Malinois", "Briard", "Australian Kelpie",
  "Komondor", "Old English Sheepdog", "Shetland Sheepdog", "collie",
  "Border Collie", "Bouvier des Flandres dog", "Rottweiler", "German Shepherd Dog",
  "Dobermann", "Miniature Pinscher", "Greater Swiss Mountain Dog", "Bernese Mountain Dog",
  "Appenzeller Sennenhund", "Entlebucher Sennenhund", "Boxer", "Bullmastiff",
  "Tibetan Mastiff", "French Bulldog", "Great Dane", "St. Bernard",
  "husky", "Alaskan Malamute", "Siberian Husky", "Dalmatian",
  "Affenpinscher", "Basenji", "pug", "Leonberger",
  "Newfoundland dog", "Great Pyrenees dog", "Samoyed", "Pomeranian",
  "Chow Chow", "Keeshond", "brussels griffon", "Pembroke Welsh Corgi",
  "Cardigan Welsh Corgi", "Toy Poodle", "Miniature Poodle", "Standard Poodle",
  "Mexican hairless dog (xoloitzcuintli)", "grey wolf", "Alaskan tundra wolf", "red wolf or maned wolf",
  "coyote", "dingo", "dhole", "African wild dog",
  "hyena", "red fox", "kit fox", "Arctic fox",
  "grey fox", "tabby cat", "tiger cat", "Persian cat",
  "Siamese cat", "Egyptian Mau", "cougar", "lynx",
  "leopard", "snow leopard", "jaguar", "lion",
  "tiger", "cheetah", "brown bear", "American black bear",
  "polar bear", "sloth bear", "mongoose", "meerkat",
  "tiger beetle", "ladybug", "ground beetle", "longhorn beetle",
  "leaf beetle", "dung beetle", "rhinoceros beetle", "weevil",
  "fly", "bee", "ant", "grasshopper",
  "cricket insect", "stick insect", "cockroach", "praying mantis",
  "cicada", "leafhopper", "lacewing", "dragonfly",
  "damselfly", "red admiral butterfly", "ringlet butterfly", "monarch butterfly",
  "small white butterfly", "sulphur butterfly", "gossamer-winged butterfly", "starfish",
  "sea urchin", "sea cucumber", "cottontail rabbit", "hare",
  "Angora rabbit", "hamster", "porcupine", "fox squirrel",
  "marmot", "beaver", "guinea pig", "common sorrel horse",
  "zebra", "pig", "wild boar", "warthog",
  "hippopotamus", "ox", "water buffalo", "bison",
  "ram (adult male sheep)", "bighorn sheep", "Alpine ibex", "hartebeest",
  "impala (antelope)", "gazelle", "arabian camel", "llama",
  "weasel", "mink", "European polecat", "black-footed ferret",
  "otter", "skunk", "badger", "armadillo",
  "three-toed sloth", "orangutan", "gorilla", "chimpanzee",
  "gibbon", "siamang", "guenon", "patas monkey",
  "baboon", "macaque", "langur", "black-and-white colobus",
  "proboscis monkey", "marmoset", "white-headed capuchin", "howler monkey",
  "titi monkey", "Geoffroy's spider monkey", "common squirrel monkey", "ring-tailed lemur",
  "indri", "Asian elephant", "African bush elephant", "red panda",
  "giant panda", "snoek fish", "eel", "silver salmon",
  "rock beauty fish", "clownfish", "sturgeon", "gar fish",
  "lionfish", "pufferfish", "abacus", "abaya",
  "academic gown", "accordion", "acoustic guitar", "aircraft carrier",
  "airliner", "airship", "altar", "ambulance",
  "amphibious vehicle", "analog clock", "apiary", "apron",
  "trash can", "assault rifle", "backpack", "bakery",
  "balance beam", "balloon", "ballpoint pen", "Band-Aid",
  "banjo", "baluster / handrail", "barbell", "barber chair",
  "barbershop", "barn", "barometer", "barrel",
  "wheelbarrow", "baseball", "basketball", "bassinet",
  "bassoon", "swimming cap", "bath towel", "bathtub",
  "station wagon", "lighthouse", "beaker", "military hat (bearskin or shako)",
  "beer bottle", "beer glass", "bell tower", "baby bib",
  "tandem bicycle", "bikini", "ring binder", "binoculars",
  "birdhouse", "boathouse", "bobsleigh", "bolo tie",
  "poke bonnet", "bookcase", "bookstore", "bottle cap",
  "hunting bow", "bow tie", "brass memorial plaque", "bra",
  "breakwater", "breastplate", "broom", "bucket",
  "buckle", "bulletproof vest", "high-speed train", "butcher shop",
  "taxicab", "cauldron", "candle", "cannon",
  "canoe", "can opener", "cardigan", "car mirror",
  "carousel", "tool kit", "cardboard box / carton", "car wheel",
  "automated teller machine", "cassette", "cassette player", "castle",
  "catamaran", "CD player", "cello", "mobile phone",
  "chain", "chain-link fence", "chain mail", "chainsaw",
  "storage chest", "chiffonier", "bell or wind chime", "china cabinet",
  "Christmas stocking", "church", "movie theater", "cleaver",
  "cliff dwelling", "cloak", "clogs", "cocktail shaker",
  "coffee mug", "coffeemaker", "spiral or coil", "combination lock",
  "computer keyboard", "candy store", "container ship", "convertible",
  "corkscrew", "cornet", "cowboy boot", "cowboy hat",
  "cradle", "construction crane", "crash helmet", "crate",
  "infant bed", "Crock Pot", "croquet ball", "crutch",
  "cuirass", "dam", "desk", "desktop computer",
  "rotary dial telephone", "diaper", "digital clock", "digital watch",
  "dining table", "dishcloth", "dishwasher", "disc brake",
  "dock", "dog sled", "dome", "doormat",
  "drilling rig", "drum", "drumstick", "dumbbell",
  "Dutch oven", "electric fan", "electric guitar", "electric locomotive",
  "entertainment center", "envelope", "espresso machine", "face powder",
  "feather boa", "filing cabinet", "fireboat", "fire truck",
  "fire screen", "flagpole", "flute", "folding chair",
  "football helmet", "forklift", "fountain", "fountain pen",
  "four-poster bed", "freight car", "French horn", "frying pan",
  "fur coat", "garbage truck", "gas mask or respirator", "gas pump",
  "goblet", "go-kart", "golf ball", "golf cart",
  "gondola", "gong", "gown", "grand piano",
  "greenhouse", "radiator grille", "grocery store", "guillotine",
  "hair clip", "hair spray", "half-track", "hammer",
  "hamper", "hair dryer", "hand-held computer", "handkerchief",
  "hard disk drive", "harmonica", "harp", "combine harvester",
  "hatchet", "holster", "home theater", "honeycomb",
  "hook", "hoop skirt", "gymnastic horizontal bar", "horse-drawn vehicle",
  "hourglass", "iPod", "clothes iron", "carved pumpkin",
  "jeans", "jeep", "T-shirt", "jigsaw puzzle",
  "rickshaw", "joystick", "kimono", "knee pad",
  "knot", "lab coat", "ladle", "lampshade",
  "laptop computer", "lawn mower", "lens cap", "letter opener",
  "library", "lifeboat", "lighter", "limousine",
  "ocean liner", "lipstick", "slip-on shoe", "lotion",
  "music speaker", "loupe magnifying glass", "sawmill", "magnetic compass",
  "messenger bag", "mailbox", "tights", "one-piece bathing suit",
  "manhole cover", "maraca", "marimba", "mask",
  "matchstick", "maypole", "maze", "measuring cup",
  "medicine cabinet", "megalith", "microphone", "microwave oven",
  "military uniform", "milk can", "minibus", "miniskirt",
  "minivan", "missile", "mitten", "mixing bowl",
  "mobile home", "ford model t", "modem", "monastery",
  "monitor", "moped", "mortar and pestle", "graduation cap",
  "mosque", "mosquito net", "vespa", "mountain bike",
  "tent", "computer mouse", "mousetrap", "moving van",
  "muzzle", "metal nail", "neck brace", "necklace",
  "baby pacifier", "notebook computer", "obelisk", "oboe",
  "ocarina", "odometer", "oil filter", "pipe organ",
  "oscilloscope", "overskirt", "bullock cart", "oxygen mask",
  "product packet / packaging", "paddle", "paddle wheel", "padlock",
  "paintbrush", "pajamas", "palace", "pan flute",
  "paper towel", "parachute", "parallel bars", "park bench",
  "parking meter", "railroad car", "patio", "payphone",
  "pedestal", "pencil case", "pencil sharpener", "perfume",
  "Petri dish", "photocopier", "plectrum", "Pickelhaube",
  "picket fence", "pickup truck", "pier", "piggy bank",
  "pill bottle", "pillow", "ping-pong ball", "pinwheel",
  "pirate ship", "drink pitcher", "block plane", "planetarium",
  "plastic bag", "plate rack", "farm plow", "plunger",
  "Polaroid camera", "pole", "police van", "poncho",
  "pool table", "soda bottle", "plant pot", "potter's wheel",
  "power drill", "prayer rug", "printer", "prison",
  "missile", "projector", "hockey puck", "punching bag",
  "purse", "quill", "quilt", "race car",
  "racket", "radiator", "radio", "radio telescope",
  "rain barrel", "recreational vehicle", "fishing casting reel", "reflex camera",
  "refrigerator", "remote control", "restaurant", "revolver",
  "rifle", "rocking chair", "rotisserie", "eraser",
  "rugby ball", "ruler measuring stick", "sneaker", "safe",
  "safety pin", "salt shaker", "sandal", "sarong",
  "saxophone", "scabbard", "weighing scale", "school bus",
  "schooner", "scoreboard", "CRT monitor", "screw",
  "screwdriver", "seat belt", "sewing machine", "shield",
  "shoe store", "shoji screen / room divider", "shopping basket", "shopping cart",
  "shovel", "shower cap", "shower curtain", "ski",
  "balaclava ski mask", "sleeping bag", "slide rule", "sliding door",
  "slot machine", "snorkel", "snowmobile", "snowplow",
  "soap dispenser", "soccer ball", "sock", "solar thermal collector",
  "sombrero", "soup bowl", "keyboard space bar", "space heater",
  "space shuttle", "spatula", "motorboat", "spider web",
  "spindle", "sports car", "spotlight", "stage",
  "steam locomotive", "through arch bridge", "steel drum", "stethoscope",
  "scarf", "stone wall", "stopwatch", "stove",
  "strainer", "tram", "stretcher", "couch",
  "stupa", "submarine", "suit", "sundial",
  "sunglasses", "sunglasses", "sunscreen", "suspension bridge",
  "mop", "sweatshirt", "swim trunks / shorts", "swing",
  "electrical switch", "syringe", "table lamp", "tank",
  "tape player", "teapot", "teddy bear", "television",
  "tennis ball", "thatched roof", "front curtain", "thimble",
  "threshing machine", "throne", "tile roof", "toaster",
  "tobacco shop", "toilet seat", "torch", "totem pole",
  "tow truck", "toy store", "tractor", "semi-trailer truck",
  "tray", "trench coat", "tricycle", "trimaran",
  "tripod", "triumphal arch", "trolleybus", "trombone",
  "hot tub", "turnstile", "typewriter keyboard", "umbrella",
  "unicycle", "upright piano", "vacuum cleaner", "vase",
  "vaulted or arched ceiling", "velvet fabric", "vending machine", "vestment",
  "viaduct", "violin", "volleyball", "waffle iron",
  "wall clock", "wallet", "wardrobe", "military aircraft",
  "sink", "washing machine", "water bottle", "water jug",
  "water tower", "whiskey jug", "whistle", "hair wig",
  "window screen", "window shade", "Windsor tie", "wine bottle",
  "airplane wing", "wok", "wooden spoon", "wool",
  "split-rail fence", "shipwreck", "sailboat", "yurt",
  "website", "comic book", "crossword", "traffic or street sign",
  "traffic light", "dust jacket", "menu", "plate",
  "guacamole", "consomme", "hot pot", "trifle",
  "ice cream", "popsicle", "baguette", "bagel",
  "pretzel", "cheeseburger", "hot dog", "mashed potatoes",
  "cabbage", "broccoli", "cauliflower", "zucchini",
  "spaghetti squash", "acorn squash", "butternut squash", "cucumber",
  "artichoke", "bell pepper", "cardoon", "mushroom",
  "Granny Smith apple", "strawberry", "orange", "lemon",
  "fig", "pineapple", "banana", "jackfruit",
  "cherimoya (custard apple)", "pomegranate", "hay", "carbonara",
  "chocolate syrup", "dough", "meatloaf", "pizza",
  "pot pie", "burrito", "red wine", "espresso",
  "tea cup", "eggnog", "mountain", "bubble",
  "cliff", "coral reef", "geyser", "lakeshore",
  "promontory", "sandbar", "beach", "valley",
  "volcano", "baseball player", "bridegroom", "scuba diver",
  "rapeseed", "daisy", "yellow lady's slipper", "corn",
  "acorn", "rose hip", "horse chestnut seed", "coral fungus",
  "agaric", "gyromitra", "stinkhorn mushroom", "earth star fungus",
  "hen of the woods mushroom", "bolete", "corn cob", "toilet paper"]

/-- `classnames["clevr_count_all"]` of builder.py (8 entries). -/
def classnames_clevr_count_all : List String := [
  "three", "four", "five", "six",
  "seven", "eight", "nine", "ten"]

/-- `classnames["clevr_closest_object_distance"]` of builder.py (6 entries). -/
def classnames_clevr_closest_object_distance : List String := [
  "very nearby", "nearby", "near", "",
  "distant", "very distant"]

/-- `classnames["mnist"]` of builder.py (10 entries). -/
def classnames_mnist : List String := [
  "0", "1", "2", "3",
  "4", "5", "6", "7",
  "8", "9"]

/-- `classnames["svhn"]` of builder.py (10 entries). -/
def classnames_svhn : List String := [
  "zero", "one", "two", "three",
  "four", "five", "six", "seven",
  "eight", "nine"]

/-- `classnames["kitti_closest_vehicle_distance"]` of builder.py (4 entries). -/
def classnames_kitti_closest_vehicle_distance : List String := [
  "a photo i took of a car on my left or right side.", "a photo i took with a car nearby.", "a photo i took with a car in the distance.", "a photo i took with no car."]

/-- `classnames["dmlab"]` of builder.py (6 entries). -/
def classnames_dmlab : List String := [
  "nearby apple/melon", "far apple/melon", "very far apple/melon", "nearby lemon",
  "far lemon", "very far lemon"]

/-- `classnames["pets"]` of builder.py (37 entries). -/
def classnames_pets : List String := [
  "Abyssinian", "American Bulldog", "American Pit Bull Terrier", "Basset Hound",
  "Beagle", "Bengal", "Birman", "Bombay",
  "Boxer", "British Shorthair", "Chihuahua", "Egyptian Mau",
  "English Cocker Spaniel", "English Setter", "German Shorthaired", "Great Pyrenees",
  "Havanese", "Japanese Chin", "Keeshond", "Leonberger",
  "Maine Coon", "Miniature Pinscher", "Newfoundland", "Persian",
  "Pomeranian", "Pug", "Ragdoll", "Russian Blue",
  "Saint Bernard", "Samoyed", "Scottish Terrier", "Shiba Inu",
  "Siamese", "Sphynx", "Staffordshire Bull Terrier", "Wheaten Terrier",
  "Yorkshire Terrier"]

/-- `classnames["pcam"]` of builder.py (2 entries). -/
def classnames_pcam : List String := [
  "lymph node", "lymph node containing metastatic tumor tissue"]

/-- `classnames["diabetic_retinopathy"]` of builder.py (5 entries). -/
def classnames_diabetic_retinopathy : List String := [
  "no diabetic retinopathy", "mild diabetic retinopathy", "moderate diabetic retinopathy", "severe diabetic retinopathy",
  "proliferative diabetic retinopathy"]

/-- The `classnames` mapping of builder.py as an association list, in source order. -/
def classnames : List (String × List String) := [
  ("flowers", classnames_flowers),
  ("gtsrb", classnames_gtsrb),
  ("country211", classnames_country211),
  ("eurosat", classnames_eurosat),
  ("fer2013", classnames_fer2013),
  ("caltech101", classnames_caltech101),
  ("caltech101_vtab", classnames_caltech101_vtab),
  ("imagenet1k", classnames_imagenet1k),
  ("clevr_count_all", classnames_clevr_count_all),
  ("clevr_closest_object_distance", classnames_clevr_closest_object_distance),
  ("mnist", classnames_mnist),
  ("svhn", classnames_svhn),
  ("kitti_closest_vehicle_distance", classnames_kitti_closest_vehicle_distance),
  ("dmlab", classnames_dmlab),
  ("pets", classnames_pets),
  ("pcam", classnames_pcam),
  ("diabetic_retinopathy", classnames_diabetic_retinopathy)]

/-! ### Prompt template store: `zeroshot_classification_templates` of builder.py -/

/-- The `"imagenet1k"` entry of `zeroshot_classification_templates` (80 templates);
also the module-level default template set. -/
def imagenet1k_templates : List String := [
  "a bad photo of a {c}.", "a photo of many {c}.",
  "a sculpture of a {c}.", "a photo of the hard to see {c}.",
  "a low resolution photo of the {c}.", "a rendering of a {c}.",
  "graffiti of a {c}.", "a bad photo of the {c}.",
  "a cropped photo of the {c}.", "a tattoo of a {c}.",
  "the embroidered {c}.", "a photo of a hard to see {c}.",
  "a bright photo of a {c}.", "a photo of a clean {c}.",
  "a photo of a dirty {c}.", "a dark photo of the {c}.",
  "a drawing of a {c}.", "a photo of my {c}.",
  "the plastic {c}.", "a photo of the cool {c}.",
  "a close-up photo of a {c}.", "a black and white photo of the {c}.",
  "a painting of the {c}.", "a painting of a {c}.",
  "a pixelated photo of the {c}.", "a sculpture of the {c}.",
  "a bright photo of the {c}.", "a cropped photo of a {c}.",
  "a plastic {c}.", "a photo of the dirty {c}.",
  "a jpeg corrupted photo of a {c}.", "a blurry photo of the {c}.",
  "a photo of the {c}.", "a good photo of the {c}.",
  "a rendering of the {c}.", "a {c} in a video game.",
  "a photo of one {c}.", "a doodle of a {c}.",
  "a close-up photo of the {c}.", "a photo of a {c}.",
  "the origami {c}.", "the {c} in a video game.",
  "a sketch of a {c}.", "a doodle of the {c}.",
  "a origami {c}.", "a low resolution photo of a {c}.",
  "the toy {c}.", "a rendition of the {c}.",
  "a photo of the clean {c}.", "a photo of a large {c}.",
  "a rendition of a {c}.", "a photo of a nice {c}.",
  "a photo of a weird {c}.", "a blurry photo of a {c}.",
  "a cartoon {c}.", "art of a {c}.",
  "a sketch of the {c}.", "a embroidered {c}.",
  "a pixelated photo of a {c}.", "itap of the {c}.",
  "a jpeg corrupted photo of the {c}.", "a good photo of a {c}.",
  "a plushie {c}.", "a photo of the nice {c}.",
  "a photo of the small {c}.", "a photo of the weird {c}.",
  "the cartoon {c}.", "art of the {c}.",
  "a drawing of the {c}.", "a photo of the large {c}.",
  "a black and white photo of a {c}.", "the plushie {c}.",
  "a dark photo of a {c}.", "itap of a {c}.",
  "graffiti of the {c}.", "a toy {c}.",
  "itap of my {c}.", "a photo of a cool {c}.",
  "a photo of a small {c}.", "a tattoo of the {c}."]

/-- The `zeroshot_classification_templates` dict of builder.py as an association list,
in source order. -/
def zeroshot_classification_templates : List (String × List String) := [
  ("cifar10", [
  "a photo of a {c}.", "a blurry photo of a {c}.",
  "a black and white photo of a {c}.", "a low contrast photo of a {c}.",
  "a high contrast photo of a {c}.", "a bad photo of a {c}.",
  "a good photo of a {c}.", "a photo of a small {c}.",
  "a photo of a big {c}.", "a photo of the {c}.",
  "a blurry photo of the {c}.", "a black and white photo of the {c}.",
  "a low contrast photo of the {c}.", "a high contrast photo of the {c}.",
  "a bad photo of the {c}.", "a good photo of the {c}.",
  "a photo of the small {c}.", "a photo of the big {c}."]),
  ("cifar100", [
  "a photo of a {c}.", "a blurry photo of a {c}.",
  "a black and white photo of a {c}.", "a low contrast photo of a {c}.",
  "a high contrast photo of a {c}.", "a bad photo of a {c}.",
  "a good photo of a {c}.", "a photo of a small {c}.",
  "a photo of a big {c}.", "a photo of the {c}.",
  "a blurry photo of the {c}.", "a black and white photo of the {c}.",
  "a low contrast photo of the {c}.", "a high contrast photo of the {c}.",
  "a bad photo of the {c}.", "a good photo of the {c}.",
  "a photo of the small {c}.", "a photo of the big {c}."]),
  ("imagenet1k", imagenet1k_templates),
  ("food101", [
  "a photo of {c}, a type of food."]),
  ("sun397", [
  "a photo of a {c}.", "a photo of the {c}."]),
  ("cars", [
  "a photo of a {c}.", "a photo of the {c}.",
  "a photo of my {c}.", "i love my {c}!",
  "a photo of my dirty {c}.", "a photo of my clean {c}.",
  "a photo of my new {c}.", "a photo of my old {c}."]),
  ("fgvc_aircraft", [
  "a photo of a {c}, a type of aircraft.", "a photo of the {c}, a type of aircraft."]),
  ("dtd", [
  "a photo of a {c} texture.", "a photo of a {c} pattern.",
  "a photo of a {c} thing.", "a photo of a {c} object.",
  "a photo of the {c} texture.", "a photo of the {c} pattern.",
  "a photo of the {c} thing.", "a photo of the {c} object."]),
  ("pets", [
  "a photo of a {c}, a type of pet."]),
  ("caltech101", [
  "a photo of a {c}.", "a painting of a {c}.",
  "a plastic {c}.", "a sculpture of a {c}.",
  "a sketch of a {c}.", "a tattoo of a {c}.",
  "a toy {c}.", "a rendition of a {c}.",
  "a embroidered {c}.", "a cartoon {c}.",
  "a {c} in a video game.", "a plushie {c}.",
  "a origami {c}.", "art of a {c}.",
  "graffiti of a {c}.", "a drawing of a {c}.",
  "a doodle of a {c}.", "a photo of the {c}.",
  "a painting of the {c}.", "the plastic {c}.",
  "a sculpture of the {c}.", "a sketch of the {c}.",
  "a tattoo of the {c}.", "the toy {c}.",
  "a rendition of the {c}.", "the embroidered {c}.",
  "the cartoon {c}.", "the {c} in a video game.",
  "the plushie {c}.", "the origami {c}.",
  "art of the {c}.", "graffiti of the {c}.",
  "a drawing of the {c}.", "a doodle of the {c}."]),
  ("flowers", [
  "a photo of a {c}, a type of flower."]),
  ("mnist", [
  "a photo of the number: \"{c}\"."]),
  ("stl10", [
  "a photo of a {c}.", "a photo of the {c}."]),
  ("eurosat", [
  "a centered satellite photo of {c}.", "a centered satellite photo of a {c}.",
  "a centered satellite photo of the {c}."]),
  ("gtsrb", [
  "a zoomed in photo of a \"{c}\" traffic sign.", "a centered photo of a \"{c}\" traffic sign.",
  "a close up photo of a \"{c}\" traffic sign."]),
  ("country211", [
  "a photo i took in {c}.", "a photo i took while visiting {c}.",
  "a photo from my home country of {c}.", "a photo from my visit to {c}.",
  "a photo showing the country of {c}."]),
  ("renderedsst2", [
  "a {c} review of a movie."]),
  ("voc2007", [
  "a photo of a {c}."]),
  ("fer2013", [
  "a photo of a {c} looking face.", "a photo of a face showing the emotion: {c}.",
  "a photo of a face looking {c}.", "a face that looks {c}.",
  "they look {c}.", "look at how {c} they are."]),
  ("clevr_count_all", [
  "a picture of {c} objects"]),
  ("clevr_closest_object_distance", [
  "{c} shapes."]),
  ("pcam", [
  "a histopathology slide showing {c}", "histopathology image of {c}"]),
  ("svhn", [
  "a photo of the number {c} written on a sign", "an outdoor house number {c}",
  "the number {c} in the center of the image", "an outdoor number {c} writte on a sign",
  "an outdoor number {c}", "a centered image of the number {c}"]),
  ("resisc45", [
  "a sattelite image of {c}", "an aerial view of {c}",
  "a sattelite photo of {c}", "{c} from above"]),
  ("kitti_closest_vehicle_distance", [
  "{c}"]),
  ("smallnorb_label_azimuth", [
  "an object rotated at {c}", "something rotated at {c}",
  "{c} rotation", "something at a {c} angle"]),
  ("smallnorb_label_elevation", [
  "an object rotated at {c}", "something rotated at {c}",
  "{c} rotation", "something at a {c} angle"]),
  ("dsprites_label_x_position", [
  "an object located at position {c}% on the horizontal axis"]),
  ("dsprites_label_orientation", [
  "an object rotated at {c}", "something rotated at {c}",
  "{c} rotation", "something at a {c} angle"]),
  ("dmlab", [
  "{c}"]),
  ("diabetic_retinopathy", [
  "a retinal image with {c}"])]

/-- `DEFAULT_ZEROSHOT_CLASSIFICATION_TEMPLATES = zeroshot_classification_templates["imagenet1k"]`. -/
def DEFAULT_ZEROSHOT_CLASSIFICATION_TEMPLATES : List String := imagenet1k_templates

/-- `get_zeroshot_classification_templates` of builder.py.  For a name starting
with `"tfds/"` or `"vtab/"` the lookup key is `dataset_name.split("/")[1]`; the
Python index `[1]` would raise `IndexError` when out of range, embedded as
`none` (it is unreachable: the guard guarantees a `"/"` in the name).  The
lookup itself is `dict.get(name, DEFAULT_ZEROSHOT_CLASSIFICATION_TEMPLATES)`. -/
def get_zeroshot_classification_templates (dataset_name : String) : Option (List String) :=
  if py_startswith dataset_name "tfds/" || py_startswith dataset_name "vtab/" then
    match (py_split '/' dataset_name).get? 1 with
    | none => none
    | some name =>
        some ((List.lookup name zeroshot_classification_templates).getD
          DEFAULT_ZEROSHOT_CLASSIFICATION_TEMPLATES)
  else
    some ((List.lookup dataset_name zeroshot_classification_templates).getD
      DEFAULT_ZEROSHOT_CLASSIFICATION_TEMPLATES)

/-- Modelled from the spec: the template lookup as the spec words it — "strips
a leading `tfds/` or `vtab/` namespace prefix before lookup, then returns the
matching set or the default set".  Used only to compare the code's lookup key
(`split("/")[1]`) against the spec's stripped name. -/
def get_templates_spec_stripped (dataset_name : String) : List String :=
  let name :=
    if py_startswith dataset_name "tfds/" then dataset_name.drop 5
    else if py_startswith dataset_name "vtab/" then dataset_name.drop 5
    else dataset_name
  (List.lookup name zeroshot_classification_templates).getD
    DEFAULT_ZEROSHOT_CLASSIFICATION_TEMPLATES

/-! ### Collation selector -/

/-- The two collate functions `get_dataset_collate_fn` can return. -/
inductive CollateFn where
  | imageCaptions
  | defaultCollate
deriving DecidableEq

/-- `get_dataset_collate_fn` of builder.py. -/
def get_dataset_collate_fn (dataset_name : String) : CollateFn :=
  if dataset_name = "mscoco_captions" ∨ dataset_name = "flickr30k" ∨ dataset_name = "flickr8k"
  then .imageCaptions else .defaultCollate

/-- `image_captions_collate_fn` of builder.py.  `transposed = list(zip(*batch))`
is `[map fst batch, map snd batch]` for a nonempty batch of pairs and `[]` for
the empty batch, where `transposed[0]` raises `IndexError` (embedded as
`none`).  `default_collate` on the images is external and passed in as
`default_collate`. -/
def image_captions_collate_fn {α β : Type} (default_collate : List α → β)
    (batch : List (α × List String)) : Option (β × List (List String)) :=
  match batch with
  | [] => none
  | _ :: _ => some (default_collate (batch.map Prod.fst), batch.map Prod.snd)

/-! ### The curated remote-tabular dispatcher `build_vtab_dataset` -/

/-- The allowed tasks of the `clevr_` family (the `assert` in builder.py). -/
def clevr_allowed_tasks : List String := ["count_all", "closest_object_distance"]

/-- The allowed tasks of the `dsprites_` family (the `assert` in builder.py). -/
def dsprites_allowed_tasks : List String :=
  ["label_shape", "label_scale", "label_orientation", "label_x_position", "label_y_position"]

/-- The allowed tasks of the `kitti_` family (the `assert` in builder.py). -/
def kitti_allowed_tasks : List String :=
  ["count_all", "count_left", "count_far", "count_near",
   "closest_object_distance", "closest_object_x_location",
   "count_vehicles", "closest_vehicle_distance"]

/-- The allowed tasks of the `smallnorb_` family (the `assert` in builder.py). -/
def smallnorb_allowed_tasks : List String :=
  ["label_category", "label_elevation", "label_azimuth", "label_lighting"]

/-- Where the `classes` argument of the final `VTABIterableDataset` comes from:
left `None` (taken from TFDS), curated from the `classnames` table, or read
from the TFDS builder info (smallnorb). -/
inductive VtabClasses where
  | fromTFDS
  | curated (names : List String)
  | fromBuilderInfo (feature : String)
deriving DecidableEq

/-- Outcome of `build_vtab_dataset`: a constructed `VTABIterableDataset` over
the named task_adaptation backend, a failed `assert`, or a raised
`ValueError`. -/
inductive VtabResult where
  | ok (backend : String) (classes : VtabClasses)
  | assertError
  | valueError (msg : String)
deriving DecidableEq

/-- `build_vtab_dataset` of builder.py.  Only the dataset-name dispatch is
modelled; the task_adaptation backend constructions are external and recorded
by name.  In the `kitti_` branch the source asserts the task against the
eight-element allowed set, constructs `KittiData`, and then raises
`ValueError` for every allowed task other than `"closest_vehicle_distance"`
when resolving `classes`. -/
def build_vtab_dataset (dataset_name : String) : VtabResult :=
  if dataset_name = "caltech101" then .ok "Caltech101" (.curated classnames_caltech101_vtab)
  else if dataset_name = "cars" then .ok "CarsData" .fromTFDS
  else if dataset_name = "cifar10" ∨ dataset_name = "cifar100" then .ok "CifarData" .fromTFDS
  else if py_startswith dataset_name "clevr_" then
    let task := extract_task dataset_name
    if task ∈ clevr_allowed_tasks then
      if task = "count_all" then .ok "CLEVRData" (.curated classnames_clevr_count_all)
      else if task = "closest_object_distance" then
        .ok "CLEVRData" (.curated classnames_clevr_closest_object_distance)
      else .valueError ("non supported: " ++ task)
    else .assertError
  else if dataset_name = "cub" then .ok "CUB2011Data" .fromTFDS
  else if dataset_name = "diabetic_retinopathy" then
    .ok "RetinopathyData" (.curated classnames_diabetic_retinopathy)
  else if dataset_name = "dmlab" then .ok "DmlabData" (.curated classnames_dmlab)
  else if py_startswith dataset_name "dsprites_" then
    let task := extract_task dataset_name
    if task ∈ dsprites_allowed_tasks then .ok "DSpritesData" .fromTFDS else .assertError
  else if dataset_name = "dtd" then .ok "DTDData" .fromTFDS
  else if dataset_name = "eurosat" then .ok "EurosatData" (.curated classnames_eurosat)
  else if dataset_name = "food101" then .ok "Food101Data" .fromTFDS
  else if dataset_name = "inaturalist" then .ok "INaturalistData" .fromTFDS
  else if py_startswith dataset_name "kitti_" then
    let task := extract_task dataset_name
    if task ∈ kitti_allowed_tasks then
      if task = "closest_vehicle_distance" then
        .ok "KittiData" (.curated classnames_kitti_closest_vehicle_distance)
      else .valueError ("Unsupported task: " ++ task)
    else .assertError
  else if dataset_name = "flowers" then .ok "OxfordFlowers102Data" .fromTFDS
  else if dataset_name = "pets" then .ok "OxfordIIITPetData" (.curated classnames_pets)
  else if dataset_name = "pcam" then .ok "PatchCamelyonData" (.curated classnames_pcam)
  else if dataset_name = "resisc45" then .ok "Resisc45Data" .fromTFDS
  else if py_startswith dataset_name "smallnorb_" then
    let task := extract_task dataset_name
    if task ∈ smallnorb_allowed_tasks then .ok "SmallNORBData" (.fromBuilderInfo task)
    else .assertError
  else if dataset_name = "sun397" then .ok "Sun397Data" .fromTFDS
  else if dataset_name = "svhn" then .ok "SvhnData" (.curated classnames_svhn)
  else .valueError ("Unsupported dataset: " ++ dataset_name)

/-! ### The main resolver `build_dataset` -/

/-- The backend constructor that `build_dataset` selects for an identifier. -/
inductive Backend where
  | CIFAR10 | CIFAR100 | ImageNet | PASCALVoc2007 | CocoCaptions | Flickr
  | Food101 | SUN397 | StanfordCars | FGVCAircraft | DTD | OxfordIIITPet
  | Caltech101 | Flowers102 | MNIST | STL10 | EuroSAT | GTSRB | Country211
  | PCAM | RenderedSST2 | ImageFolder | TFDS | VTAB
deriving DecidableEq

/-- The `classes` attribute of the returned handle: left as the backend
provides it, overridden with a curated list (`ds.classes = classnames[...]`),
or - for food101 and sun397 - the backend's own names with each `"_"` replaced
by a space. -/
inductive ClassSource where
  | backendDefault
  | overridden (names : List String)
  | underscoresReplaced
deriving DecidableEq

/-- The normalized dataset handle `build_dataset` returns: the selected
backend, the `classes` normalization applied to it, whether the flowers
label-decrement `target_transform` was installed, and the unrecognized keyword
options forwarded to the backend constructor. -/
structure DatasetHandle where
  backend : Backend
  classes : ClassSource
  targetTransformDec : Bool
  kwargs : List (String × String)
deriving DecidableEq

/-- Outcome of a `build_dataset` call: a returned handle, `sys.exit(code)`, a
propagated `TypeError` (from `os.path.exists(None)`), a failed `assert`
(propagated from the vtab path), or a raised `ValueError`. -/
inductive BuildResult where
  | ok (handle : DatasetHandle)
  | exited (code : Nat)
  | typeError
  | assertError
  | valueError (msg : String)
deriving DecidableEq

/-- A `build_dataset` outcome together with the messages printed on the way. -/
structure BuildOutput where
  result : BuildResult
  printed : List String
deriving DecidableEq

/-- The external world `build_dataset` probes: `fs` is `os.path.exists` on
actual paths, and `flowersFirstLabel` is the label `ds[0][1]` of the first
sample of the torchvision `Flowers102` backend probed in the flowers branch. -/
structure Env where
  fs : String → Bool
  flowersFirstLabel : Int

/-- `os.path.exists(annotation_file)`: `os.path.exists(None)` raises an
uncaught `TypeError` (embedded as `none`) because `os.stat` rejects `None`
with `TypeError`, which `exists` does not catch. -/
def os_path_exists (env : Env) : Option String → Option Bool
  | none => none
  | some p => some (env.fs p)

/-- The remediation message printed for a missing mscoco annotation file. -/
def mscoco_manual_msg : String :=
  "You need to download this dataset manually. Please download the dataset from https://cocodataset.org/"

/-- The remediation message printed for a missing flickr30k annotation file. -/
def flickr30k_manual_msg : String :=
  "You need to download this dataset manually. Please download the dataset from https://www.kaggle.com/datasets/adityajn105/flickr30k"

/-- The remediation message printed for a missing flickr8k annotation file. -/
def flickr8k_manual_msg : String :=
  "You need to download this dataset manually. Please download the dataset from https://www.kaggle.com/datasets/adityajn105/flickr8k"

/-- The remediation message printed for a missing fer2013 data folder. -/
def fer2013_manual_msg : String :=
  "You need to download this dataset manually. Please download the dataset from https://www.kaggle.com/datasets/msambare/fer2013"

/-- The identifiers enumerated directly in `build_dataset`'s dispatch chain,
in source order. -/
def known_dataset_names : List String :=
  ["cifar10", "cifar100", "imagenet1k", "voc2007", "mscoco_captions", "flickr30k",
   "flickr8k", "food101", "sun397", "cars", "fgvc_aircraft", "dtd", "pets",
   "caltech101", "flowers", "mnist", "stl10", "eurosat", "gtsrb", "country211",
   "pcam", "renderedsst2", "fer2013"]

/-- The enumerated identifiers whose branch passes `**kwargs` on to the
selected backend constructor (all of them except fer2013, whose `ImageFolder`
call drops them). -/
def kwargs_forwarding_names : List String :=
  ["cifar10", "cifar100", "imagenet1k", "voc2007", "mscoco_captions", "flickr30k",
   "flickr8k", "food101", "sun397", "cars", "fgvc_aircraft", "dtd", "pets",
   "caltech101", "flowers", "mnist", "stl10", "eurosat", "gtsrb", "country211",
   "pcam", "renderedsst2"]

/-- `build_dataset` of builder.py.  Backend constructions are recorded in the
handle; `root`, `split`, `annotation_file` and the unrecognized keyword bag
`kwargs` are threaded exactly where the source consults them.  The flowers
branch probes `ds[0][1]` (the environment's `flowersFirstLabel`) and installs
the decrementing `target_transform` when that label equals 1.  The fer2013
branch joins `root` with the split folder, probes it, and constructs
`ImageFolder` without forwarding `kwargs`.  The `tfds/` and `vtab/` branches
delegate without forwarding `kwargs` or `annotation_file`. -/
def build_dataset (env : Env) (dataset_name root split : String)
    (annotation_file : Option String) (kwargs : List (String × String)) : BuildOutput :=
  let train : Bool := split = "train"
  if dataset_name = "cifar10" then
    ⟨.ok ⟨.CIFAR10, .backendDefault, false, kwargs⟩, []⟩
  else if dataset_name = "cifar100" then
    ⟨.ok ⟨.CIFAR100, .backendDefault, false, kwargs⟩, []⟩
  else if dataset_name = "imagenet1k" then
    ⟨.ok ⟨.ImageNet, .overridden classnames_imagenet1k, false, kwargs⟩, []⟩
  else if dataset_name = "voc2007" then
    ⟨.ok ⟨.PASCALVoc2007, .backendDefault, false, kwargs⟩, []⟩
  else if dataset_name = "mscoco_captions" then
    match os_path_exists env annotation_file with
    | none => ⟨.typeError, []⟩
    | some ex =>
        ⟨.ok ⟨.CocoCaptions, .backendDefault, false, kwargs⟩,
         if ex then [] else [mscoco_manual_msg]⟩
  else if dataset_name = "flickr30k" then
    match os_path_exists env annotation_file with
    | none => ⟨.typeError, []⟩
    | some ex =>
        if ex then ⟨.ok ⟨.Flickr, .backendDefault, false, kwargs⟩, []⟩
        else ⟨.exited 1, [flickr30k_manual_msg]⟩
  else if dataset_name = "flickr8k" then
    match os_path_exists env annotation_file with
    | none => ⟨.typeError, []⟩
    | some ex =>
        if ex then ⟨.ok ⟨.Flickr, .backendDefault, false, kwargs⟩, []⟩
        else ⟨.exited 1, [flickr8k_manual_msg]⟩
  else if dataset_name = "food101" then
    ⟨.ok ⟨.Food101, .underscoresReplaced, false, kwargs⟩, []⟩
  else if dataset_name = "sun397" then
    ⟨.ok ⟨.SUN397, .underscoresReplaced, false, kwargs⟩, []⟩
  else if dataset_name = "cars" then
    ⟨.ok ⟨.StanfordCars, .backendDefault, false, kwargs⟩, []⟩
  else if dataset_name = "fgvc_aircraft" then
    ⟨.ok ⟨.FGVCAircraft, .backendDefault, false, kwargs⟩, []⟩
  else if dataset_name = "dtd" then
    ⟨.ok ⟨.DTD, .backendDefault, false, kwargs⟩, []⟩
  else if dataset_name = "pets" then
    ⟨.ok ⟨.OxfordIIITPet, .backendDefault, false, kwargs⟩, []⟩
  else if dataset_name = "caltech101" then
    ⟨.ok ⟨.Caltech101, .overridden classnames_caltech101, false, kwargs⟩, []⟩
  else if dataset_name = "flowers" then
    ⟨.ok ⟨.Flowers102, .overridden classnames_flowers,
          env.flowersFirstLabel == 1, kwargs⟩, []⟩
  else if dataset_name = "mnist" then
    ⟨.ok ⟨.MNIST, .overridden classnames_mnist, false, kwargs⟩, []⟩
  else if dataset_name = "stl10" then
    ⟨.ok ⟨.STL10, .backendDefault, false, kwargs⟩, []⟩
  else if dataset_name = "eurosat" then
    ⟨.ok ⟨.EuroSAT, .overridden classnames_eurosat, false, kwargs⟩, []⟩
  else if dataset_name = "gtsrb" then
    ⟨.ok ⟨.GTSRB, .overridden classnames_gtsrb, false, kwargs⟩, []⟩
  else if dataset_name = "country211" then
    ⟨.ok ⟨.Country211, .overridden classnames_country211, false, kwargs⟩, []⟩
  else if dataset_name = "pcam" then
    ⟨.ok ⟨.PCAM, .overridden classnames_pcam, false, kwargs⟩, []⟩
  else if dataset_name = "renderedsst2" then
    ⟨.ok ⟨.RenderedSST2, .backendDefault, false, kwargs⟩, []⟩
  else if dataset_name = "fer2013" then
    let root2 := root ++ "/" ++ (if train then "train" else "test")
    ⟨.ok ⟨.ImageFolder, .overridden classnames_fer2013, false, []⟩,
     if env.fs root2 then [] else [fer2013_manual_msg]⟩
  else if py_startswith dataset_name "tfds/" then
    ⟨.ok ⟨.TFDS, .backendDefault, false, []⟩, []⟩
  else if py_startswith dataset_name "vtab/" then
    match build_vtab_dataset (py_join '/' (py_split '/' dataset_name).tail) with
    | .ok _ (.curated l) => ⟨.ok ⟨.VTAB, .overridden l, false, []⟩, []⟩
    | .ok _ _ => ⟨.ok ⟨.VTAB, .backendDefault, false, []⟩, []⟩
    | .assertError => ⟨.assertError, []⟩
    | .valueError m => ⟨.valueError m, []⟩
  else ⟨.valueError ("Unsupported dataset: " ++ dataset_name ++ "."), []⟩

/-- The label a consumer observes for a raw backend label `y`, after the
handle's optional decrementing `target_transform`. -/
def effective_label (h : DatasetHandle) (y : Int) : Int :=
  if h.targetTransformDec then y - 1 else y

/-- The keyword options that reached the backend constructor, when a handle
was returned. -/
def result_kwargs : BuildOutput → Option (List (String × String))
  | ⟨.ok h, _⟩ => some h.kwargs
  | _ => none

/-- The curated class-name override carried by a returned handle, when there
is one. -/
def result_classes : BuildOutput → Option (List String)
  | ⟨.ok h, _⟩ =>
      match h.classes with
      | .overridden l => some l
      | _ => none
  | _ => none

/-! ### Helper lemmas about the string primitives -/

lemma isPrefixOf_iff_exists_append (l₁ l₂ : List Char) :
    l₁.isPrefixOf l₂ = true ↔ ∃ t, l₂ = l₁ ++ t := by
  induction l₁ generalizing l₂ with
  | nil => simp [List.isPrefixOf]
  | cons a as ih =>
    cases l₂ with
    | nil => simp [List.isPrefixOf]
    | cons b bs =>
      simp only [List.isPrefixOf, Bool.and_eq_true, beq_iff_eq, ih, List.cons_append,
        List.cons.injEq]
      constructor
      · rintro ⟨rfl, t, rfl⟩; exact ⟨t, rfl, rfl⟩
      · rintro ⟨t, rfl, rfl⟩; exact ⟨rfl, t, rfl⟩

lemma isPrefixOf_append_self (l t : List Char) : l.isPrefixOf (l ++ t) = true :=
  (isPrefixOf_iff_exists_append l (l ++ t)).mpr ⟨t, rfl⟩

lemma mem_of_isPrefixOf {l₁ l₂ : List Char} {a : Char}
    (h : l₁.isPrefixOf l₂ = true) (ha : a ∈ l₁) : a ∈ l₂ := by
  obtain ⟨t, rfl⟩ := (isPrefixOf_iff_exists_append l₁ l₂).mp h
  exact List.mem_append_left t ha

lemma py_split_char_ne_nil (sep : Char) (l : List Char) : py_split_char sep l ≠ [] := by
  cases l with
  | nil => exact fun h => List.noConfusion h
  | cons a rest =>
    by_cases h : a = sep <;> simp [py_split_char, h]

lemma py_split_char_no_sep (sep : Char) (l : List Char) (h : sep ∉ l) :
    py_split_char sep l = [l] := by
  induction l with
  | nil => rfl
  | cons a rest ih =>
    have ha : ¬a = sep := fun e => h (e ▸ List.mem_cons_self a rest)
    have hrest : sep ∉ rest := fun hm => h (List.mem_cons_of_mem a hm)
    simp [py_split_char, ha, ih hrest]

lemma py_split_char_sep_append (sep : Char) (p l : List Char) (hp : sep ∉ p) :
    py_split_char sep (p ++ sep :: l) = p :: py_split_char sep l := by
  induction p with
  | nil => simp [py_split_char]
  | cons a p' ih =>
    have ha : ¬a = sep := fun e => hp (e ▸ List.mem_cons_self a p')
    have hp' : sep ∉ p' := fun hm => hp (List.mem_cons_of_mem a hm)
    simp [py_split_char, ha, ih hp']

lemma join_char_cons_head (sep : Char) (a : Char) (r : List (List Char)) (hr : r ≠ []) :
    join_char sep ((a :: r.headD []) :: r.tail) = a :: join_char sep r := by
  cases r with
  | nil => exact absurd rfl hr
  | cons x t =>
    cases t with
    | nil => rfl
    | cons y ys => rfl

lemma join_char_py_split_char (sep : Char) (l : List Char) :
    join_char sep (py_split_char sep l) = l := by
  induction l with
  | nil => rfl
  | cons a rest ih =>
    by_cases h : a = sep
    · subst h
      simp only [py_split_char, if_pos rfl]
      cases hr : py_split_char a rest with
      | nil => exact absurd hr (py_split_char_ne_nil a rest)
      | cons x t => rw [hr] at ih; simp [join_char, ih]
    · simp only [py_split_char, if_neg h]
      rw [join_char_cons_head sep a _ (py_split_char_ne_nil sep rest), ih]

lemma mk_data (s : String) : (⟨s.data⟩ : String) = s := rfl

lemma extract_task_of_data (s t : String) (p : List Char) (hp : '_' ∉ p)
    (hs : s.data = p ++ '_' :: t.data) : extract_task s = t := by
  unfold extract_task py_split py_join
  rw [hs, py_split_char_sep_append '_' p t.data hp]
  simp only [List.map_cons, List.tail_cons, List.map_map]
  rw [show (String.data ∘ fun l : List Char => (⟨l⟩ : String)) = id from rfl, List.map_id,
    join_char_py_split_char]

lemma string_ne_of_head (s lit : String) (c : Char) (hs : s.data.head? = some c)
    (hl : lit.data.head? ≠ some c) : s ≠ lit := fun e => hl (e ▸ hs)

lemma py_startswith_false_of_head (s p : String) (c c' : Char)
    (hs : s.data.head? = some c) (hp : p.data.head? = some c') (hcc : c' ≠ c) :
    py_startswith s p = false := by
  unfold py_startswith
  cases hpd : p.data with
  | nil => rw [hpd] at hp; simp at hp
  | cons b bt =>
    cases hsd : s.data with
    | nil => rw [hsd] at hs; simp at hs
    | cons a at' =>
      rw [hpd] at hp; rw [hsd] at hs
      simp only [List.head?_cons, Option.some.injEq] at hp hs
      subst hp; subst hs
      simp [List.isPrefixOf, beq_eq_false_iff_ne, hcc]

lemma py_startswith_append (p t : String) : py_startswith (p ++ t) p = true := by
  unfold py_startswith
  rw [String.data_append]
  exact isPrefixOf_append_self p.data t.data

lemma py_startswith_false_of_not_mem (s p : String) (c : Char) (hc : c ∈ p.data)
    (hs : c ∉ s.data) : py_startswith s p = false := by
  cases h : py_startswith s p
  · rfl
  · exact absurd (mem_of_isPrefixOf h hc) hs

lemma two_le_py_split_char_length (sep : Char) (l : List Char) (h : sep ∈ l) :
    2 ≤ (py_split_char sep l).length := by
  induction l with
  | nil => simp at h
  | cons a rest ih =>
    by_cases ha : a = sep
    · have hr := py_split_char_ne_nil sep rest
      simp only [py_split_char, if_pos ha, List.length_cons]
      cases hrr : py_split_char sep rest with
      | nil => exact absurd hrr hr
      | cons x t => simp
    · have hrest : sep ∈ rest := by
        rcases List.mem_cons.mp h with h' | h'
        · exact absurd h'.symm ha
        · exact h'
      have hr := py_split_char_ne_nil sep rest
      have hlen := ih hrest
      simp only [py_split_char, if_neg ha, List.length_cons]
      cases hrr : py_split_char sep rest with
      | nil => exact absurd hrr hr
      | cons x t =>
        rw [hrr] at hlen
        simpa using hlen

/-! ### The claims -/

/-- C1: manual-download gating is per-identifier.  With an annotation file
that does not exist, `build_dataset` for `"flickr30k"` and `"flickr8k"`
prints the remediation URL message and terminates the process via
`sys.exit(1)` before any backend is constructed, while for
`"mscoco_captions"` it prints the remediation message and still returns a
constructed `CocoCaptions` backend handle without raising. -/
theorem manual_download_gating_per_identifier
    (env : Env) (root split : String) (kwargs : List (String × String)) (p : String)
    (h : env.fs p = false) :
    build_dataset env "flickr30k" root split (some p) kwargs
      = ⟨.exited 1, [flickr30k_manual_msg]⟩
    ∧ build_dataset env "flickr8k" root split (some p) kwargs
      = ⟨.exited 1, [flickr8k_manual_msg]⟩
    ∧ build_dataset env "mscoco_captions" root split (some p) kwargs
      = ⟨.ok ⟨.CocoCaptions, .backendDefault, false, kwargs⟩, [mscoco_manual_msg]⟩ := by
  refine ⟨?_, ?_, ?_⟩ <;> simp [build_dataset, os_path_exists, h]

/-- Witness for C1 at a concrete empty filesystem and path. -/
theorem manual_download_gating_per_identifier_witness :
    build_dataset ⟨fun _ => false, 0⟩ "flickr30k" "root" "test" (some "ann.json") []
      = ⟨.exited 1, [flickr30k_manual_msg]⟩
    ∧ build_dataset ⟨fun _ => false, 0⟩ "flickr8k" "root" "test" (some "ann.json") []
      = ⟨.exited 1, [flickr8k_manual_msg]⟩
    ∧ build_dataset ⟨fun _ => false, 0⟩ "mscoco_captions" "root" "test" (some "ann.json") []
      = ⟨.ok ⟨.CocoCaptions, .backendDefault, false, []⟩, [mscoco_manual_msg]⟩ :=
  manual_download_gating_per_identifier ⟨fun _ => false, 0⟩ "root" "test" [] "ann.json" rfl

/-- C2: the flowers branch probes the first sample's label.  When the probe
sees label 1 the decrementing `target_transform` is installed and the
effective label of that sample is 0; when it sees label 0 no transform is
installed and every label passes through unchanged.  In both cases `classes`
is overridden with the curated flowers vocabulary. -/
theorem flowers_first_label_probe
    (env : Env) (root split : String) (kwargs : List (String × String)) :
    (env.flowersFirstLabel = 1 →
      build_dataset env "flowers" root split none kwargs
        = ⟨.ok ⟨.Flowers102, .overridden classnames_flowers, true, kwargs⟩, []⟩
      ∧ effective_label ⟨.Flowers102, .overridden classnames_flowers, true, kwargs⟩
          env.flowersFirstLabel = 0)
    ∧ (env.flowersFirstLabel = 0 →
      build_dataset env "flowers" root split none kwargs
        = ⟨.ok ⟨.Flowers102, .overridden classnames_flowers, false, kwargs⟩, []⟩
      ∧ ∀ y : Int,
          effective_label ⟨.Flowers102, .overridden classnames_flowers, false, kwargs⟩ y = y) := by
  constructor
  · intro h
    exact ⟨by simp [build_dataset, h], by simp [effective_label, h]⟩
  · intro h
    exact ⟨by simp [build_dataset, h], fun y => by simp [effective_label]⟩

/-- Witness for C2 at fixture first labels 1 and 0. -/
theorem flowers_first_label_probe_witness :
    build_dataset ⟨fun _ => false, 1⟩ "flowers" "root" "test" none []
      = ⟨.ok ⟨.Flowers102, .overridden classnames_flowers, true, []⟩, []⟩
    ∧ build_dataset ⟨fun _ => false, 0⟩ "flowers" "root" "test" none []
      = ⟨.ok ⟨.Flowers102, .overridden classnames_flowers, false, []⟩, []⟩ :=
  ⟨((flowers_first_label_probe ⟨fun _ => false, 1⟩ "root" "test" []).1 rfl).1,
   ((flowers_first_label_probe ⟨fun _ => false, 0⟩ "root" "test" []).2 rfl).1⟩

/-- Counterexample to C3 as stated: `"count_all"` is inside the fixed allowed
kitti task set, yet `build_vtab_dataset "kitti_count_all"` does not construct
a dataset handle - it raises `ValueError("Unsupported task: count_all")`. -/
theorem kitti_allowed_task_fails_cex :
    "count_all" ∈ kitti_allowed_tasks
    ∧ build_vtab_dataset "kitti_count_all" = .valueError "Unsupported task: count_all" := by
  decide

/-- C3 (amended): the kitti assertion accepts exactly the eight-task allowed
set, but a dataset handle is constructed only for
`"closest_vehicle_distance"`; every other allowed task passes the assertion
and then raises `ValueError("Unsupported task: <task>")` at the classes
dispatch, and every task outside the set fails the fatal assertion. -/
theorem kitti_task_dispatch_amended (t : String) :
    build_vtab_dataset ("kitti_" ++ t) =
      if t ∈ kitti_allowed_tasks then
        if t = "closest_vehicle_distance" then
          .ok "KittiData" (.curated classnames_kitti_closest_vehicle_distance)
        else .valueError ("Unsupported task: " ++ t)
      else .assertError := by
  have hd : ("kitti_" ++ t).data = 'k' :: 'i' :: 't' :: 't' :: 'i' :: '_' :: t.data := by
    rw [String.data_append]; rfl
  have hhead : ("kitti_" ++ t).data.head? = some 'k' := by rw [hd]; rfl
  have e1 : "kitti_" ++ t ≠ "caltech101" := string_ne_of_head _ _ 'k' hhead (by decide)
  have e2 : "kitti_" ++ t ≠ "cars" := string_ne_of_head _ _ 'k' hhead (by decide)
  have e3 : "kitti_" ++ t ≠ "cifar10" := string_ne_of_head _ _ 'k' hhead (by decide)
  have e4 : "kitti_" ++ t ≠ "cifar100" := string_ne_of_head _ _ 'k' hhead (by decide)
  have e5 : "kitti_" ++ t ≠ "cub" := string_ne_of_head _ _ 'k' hhead (by decide)
  have e6 : "kitti_" ++ t ≠ "diabetic_retinopathy" := string_ne_of_head _ _ 'k' hhead (by decide)
  have e7 : "kitti_" ++ t ≠ "dmlab" := string_ne_of_head _ _ 'k' hhead (by decide)
  have e8 : "kitti_" ++ t ≠ "dtd" := string_ne_of_head _ _ 'k' hhead (by decide)
  have e9 : "kitti_" ++ t ≠ "eurosat" := string_ne_of_head _ _ 'k' hhead (by decide)
  have e10 : "kitti_" ++ t ≠ "food101" := string_ne_of_head _ _ 'k' hhead (by decide)
  have e11 : "kitti_" ++ t ≠ "inaturalist" := string_ne_of_head _ _ 'k' hhead (by decide)
  have sw1 : py_startswith ("kitti_" ++ t) "clevr_" = false :=
    py_startswith_false_of_head _ _ 'k' 'c' hhead rfl (by decide)
  have sw2 : py_startswith ("kitti_" ++ t) "dsprites_" = false :=
    py_startswith_false_of_head _ _ 'k' 'd' hhead rfl (by decide)
  have sw3 : py_startswith ("kitti_" ++ t) "kitti_" = true := py_startswith_append _ _
  have hext : extract_task ("kitti_" ++ t) = t :=
    extract_task_of_data _ t ['k', 'i', 't', 't', 'i'] (by decide) hd
  simp [build_vtab_dataset, e1, e2, e3, e4, e5, e6, e7, e8, e9, e10, e11, sw1, sw2, sw3, hext]

/-- Counterexample to C4 as stated: an unrecognized keyword option passed to
`build_dataset` for `"fer2013"` is not forwarded - the `ImageFolder` backend
is constructed with an empty keyword bag. -/
theorem fer2013_drops_kwargs_cex :
    result_kwargs (build_dataset ⟨fun _ => true, 0⟩ "fer2013" "root" "test" none
      [("year", "2021")]) = some []
    ∧ result_kwargs (build_dataset ⟨fun _ => true, 0⟩ "fer2013" "root" "test" none
      [("year", "2021")]) ≠ some [("year", "2021")] := by
  decide

/-- C4 (amended): unrecognized keyword options are forwarded verbatim to the
backend constructor for every directly enumerated identifier except fer2013;
the fer2013 `ImageFolder` call and the `tfds/` and `vtab/` delegation paths
drop them. -/
theorem kwargs_forwarding_amended
    (env : Env) (root split : String) (kwargs : List (String × String)) (p : String)
    (hp : env.fs p = true) :
    (∀ name ∈ kwargs_forwarding_names,
        result_kwargs (build_dataset env name root split (some p) kwargs) = some kwargs)
    ∧ result_kwargs (build_dataset env "fer2013" root split (some p) kwargs) = some []
    ∧ result_kwargs (build_dataset env "tfds/cifar10" root split (some p) kwargs) = some []
    ∧ result_kwargs (build_dataset env "vtab/eurosat" root split (some p) kwargs) = some [] := by
  refine ⟨?_, ?_, ?_, ?_⟩
  · intro name hname
    fin_cases hname <;> simp [build_dataset, result_kwargs, os_path_exists, hp]
  · simp [build_dataset, result_kwargs]
  · rfl
  · rfl

/-- Witness for C4 (amended) at a concrete environment: a `"cifar10"` call
forwards the option, the `"fer2013"` call drops it. -/
theorem kwargs_forwarding_amended_witness :
    result_kwargs (build_dataset ⟨fun _ => true, 0⟩ "cifar10" "root" "test" (some "a")
      [("year", "2021")]) = some [("year", "2021")]
    ∧ result_kwargs (build_dataset ⟨fun _ => true, 0⟩ "fer2013" "root" "test" (some "a")
      [("year", "2021")]) = some [] :=
  ⟨(kwargs_forwarding_amended ⟨fun _ => true, 0⟩ "root" "test" [("year", "2021")] "a" rfl).1
      "cifar10" (by decide),
   (kwargs_forwarding_amended ⟨fun _ => true, 0⟩ "root" "test" [("year", "2021")] "a" rfl).2.1⟩

/-- Counterexample to C5 as stated: for an identifier with two slashes the
code looks up the segment between the first and second slash, not the whole
suffix after the stripped namespace, so the result differs from the
spec-worded strip-then-lookup function. -/
theorem templates_second_segment_lookup_cex :
    get_zeroshot_classification_templates "tfds/cifar10/x"
      ≠ some (get_templates_spec_stripped "tfds/cifar10/x") := by
  decide

/-- C5 (amended): `get_zeroshot_classification_templates` is total (never
fails); it looks up the segment after the first slash for namespaced
identifiers - which coincides with stripping the `tfds/` or `vtab/`
namespace whenever the remainder contains no further slash - and falls back
to the default (imagenet1k) set, so the result for `"unknown_name"` equals
the result for `"imagenet1k"` and the result for `"vtab/eurosat"` equals the
result for `"eurosat"`. -/
theorem get_templates_amended :
    (∀ name : String, (get_zeroshot_classification_templates name).isSome = true)
    ∧ get_zeroshot_classification_templates "unknown_name"
        = get_zeroshot_classification_templates "imagenet1k"
    ∧ get_zeroshot_classification_templates "vtab/eurosat"
        = get_zeroshot_classification_templates "eurosat"
    ∧ (∀ s : String, '/' ∉ s.data →
        get_zeroshot_classification_templates ("tfds/" ++ s)
          = get_zeroshot_classification_templates s
        ∧ get_zeroshot_classification_templates ("vtab/" ++ s)
          = get_zeroshot_classification_templates s) := by
  refine ⟨?_, by decide, by decide, ?_⟩
  · intro name
    unfold get_zeroshot_classification_templates
    by_cases h : (py_startswith name "tfds/" || py_startswith name "vtab/") = true
    · rw [if_pos h]
      have hm : '/' ∈ name.data := by
        simp only [Bool.or_eq_true] at h
        rcases h with h' | h'
        · exact mem_of_isPrefixOf h' (by decide)
        · exact mem_of_isPrefixOf h' (by decide)
      have hlen : 2 ≤ (py_split '/' name).length := by
        unfold py_split
        rw [List.length_map]
        exact two_le_py_split_char_length '/' name.data hm
      cases hq : (py_split '/' name).get? 1 with
      | none =>
        rw [List.get?_eq_none] at hq
        omega
      | some nm => simp
    · rw [if_neg h]
      rfl
  · intro s hs
    have h1 : py_startswith ("tfds/" ++ s) "tfds/" = true := py_startswith_append _ _
    have h2 : py_startswith ("vtab/" ++ s) "vtab/" = true := py_startswith_append _ _
    have hs1 : py_startswith s "tfds/" = false :=
      py_startswith_false_of_not_mem s _ '/' (by decide) hs
    have hs2 : py_startswith s "vtab/" = false :=
      py_startswith_false_of_not_mem s _ '/' (by decide) hs
    have hsplit1 : py_split '/' ("tfds/" ++ s) = ["tfds", s] := by
      unfold py_split
      have hdata : ("tfds/" ++ s).data = ['t', 'f', 'd', 's'] ++ '/' :: s.data := by
        rw [String.data_append]; rfl
      rw [hdata, py_split_char_sep_append '/' _ _ (by decide),
        py_split_char_no_sep '/' s.data hs]
      rfl
    have hsplit2 : py_split '/' ("vtab/" ++ s) = ["vtab", s] := by
      unfold py_split
      have hdata : ("vtab/" ++ s).data = ['v', 't', 'a', 'b'] ++ '/' :: s.data := by
        rw [String.data_append]; rfl
      rw [hdata, py_split_char_sep_append '/' _ _ (by decide),
        py_split_char_no_sep '/' s.data hs]
      rfl
    constructor
    · unfold get_zeroshot_classification_templates
      simp [h1, hs1, hs2, hsplit1]
    · unfold get_zeroshot_classification_templates
      simp [h2, hs1, hs2, hsplit2]

/-- Witness for C5 (amended): stripping law applied at `"eurosat"`, totality
applied at `"unknown_name"`. -/
theorem get_templates_amended_witness :
    get_zeroshot_classification_templates ("tfds/" ++ "eurosat")
      = get_zeroshot_classification_templates "eurosat"
    ∧ (get_zeroshot_classification_templates "unknown_name").isSome = true :=
  ⟨(get_templates_amended.2.2.2 "eurosat" (by decide)).1,
   get_templates_amended.1 "unknown_name"⟩

/-- C6: an identifier that is none of the directly enumerated names and does
not start with `"tfds/"` or `"vtab/"` makes `build_dataset` raise
`ValueError("Unsupported dataset: <name>.")` immediately, with no backend
constructed and nothing printed. -/
theorem unsupported_identifier_raises
    (env : Env) (name root split : String) (annotation_file : Option String)
    (kwargs : List (String × String))
    (hmem : name ∉ known_dataset_names)
    (h1 : py_startswith name "tfds/" = false)
    (h2 : py_startswith name "vtab/" = false) :
    build_dataset env name root split annotation_file kwargs
      = ⟨.valueError ("Unsupported dataset: " ++ name ++ "."), []⟩ := by
  simp only [known_dataset_names, List.mem_cons, List.not_mem_nil, or_false, not_or] at hmem
  obtain ⟨m1, m2, m3, m4, m5, m6, m7, m8, m9, m10, m11, m12, m13, m14, m15, m16, m17, m18,
    m19, m20, m21, m22, m23⟩ := hmem
  simp [build_dataset, h1, h2, m1, m2, m3, m4, m5, m6, m7, m8, m9, m10, m11, m12, m13, m14,
    m15, m16, m17, m18, m19, m20, m21, m22, m23]

/-- Witness for C6 at the concrete identifier `"definitely_not_a_dataset"`. -/
theorem unsupported_identifier_raises_witness :
    build_dataset ⟨fun _ => false, 0⟩ "definitely_not_a_dataset" "root" "test" none []
      = ⟨.valueError ("Unsupported dataset: " ++ "definitely_not_a_dataset" ++ "."), []⟩ :=
  unsupported_identifier_raises ⟨fun _ => false, 0⟩ "definitely_not_a_dataset" "root" "test"
    none [] (by decide) (by decide) (by decide)

/-- C7: `get_dataset_collate_fn` returns the caption-aware collator exactly
for the three caption-corpus identifiers and the default stacker for every
other identifier, and the caption-aware collator batches the images with the
default collator while keeping the caption lists in original batch order. -/
theorem collate_selection_and_transpose :
    (∀ name : String,
        get_dataset_collate_fn name = .imageCaptions ↔
          (name = "mscoco_captions" ∨ name = "flickr30k" ∨ name = "flickr8k"))
    ∧ (∀ name : String, name ≠ "mscoco_captions" → name ≠ "flickr30k" → name ≠ "flickr8k" →
        get_dataset_collate_fn name = .defaultCollate)
    ∧ (∀ {α β : Type} (dc : List α → β) (x : α × List String) (rest : List (α × List String)),
        image_captions_collate_fn dc (x :: rest)
          = some (dc ((x :: rest).map Prod.fst), (x :: rest).map Prod.snd))
    ∧ (∀ {α β : Type} (dc : List α → β) (img1 img2 : α),
        image_captions_collate_fn dc [(img1, ["a", "b"]), (img2, ["c"])]
          = some (dc [img1, img2], [["a", "b"], ["c"]])) := by
  refine ⟨?_, ?_, ?_, ?_⟩
  · intro name
    unfold get_dataset_collate_fn
    by_cases hc : name = "mscoco_captions" ∨ name = "flickr30k" ∨ name = "flickr8k"
    · simp [hc]
    · simp [hc]
  · intro name n1 n2 n3
    simp [get_dataset_collate_fn, n1, n2, n3]
  · intro α β dc x rest
    rfl
  · intro α β dc img1 img2
    rfl

/-- Witness for C7 at concrete identifiers and a concrete two-pair batch. -/
theorem collate_selection_and_transpose_witness :
    get_dataset_collate_fn "flickr30k" = .imageCaptions
    ∧ get_dataset_collate_fn "cifar10" = .defaultCollate
    ∧ image_captions_collate_fn (fun l : List Nat => l) [(1, ["a", "b"]), (2, ["c"])]
        = some ([1, 2], [["a", "b"], ["c"]]) :=
  ⟨(collate_selection_and_transpose.1 "flickr30k").mpr (Or.inr (Or.inl rfl)),
   collate_selection_and_transpose.2.1 "cifar10" (by decide) (by decide) (by decide),
   collate_selection_and_transpose.2.2.2 (fun l : List Nat => l) 1 2⟩

/-- Counterexample to C8 as stated: on the empty batch the caption-aware
collator fails (the `transposed[0]` access raises `IndexError`). -/
theorem image_captions_collate_empty_batch_cex :
    image_captions_collate_fn (fun l : List Nat => l) ([] : List (Nat × List String))
      = none := rfl

/-- C8 (amended): `get_dataset_collate_fn` succeeds (returns one of the two
collators) for every identifier, and the caption-aware collator is defined
for every nonempty batch of pairs; on the empty batch it fails with
`IndexError`. -/
theorem collate_totality_amended :
    (∀ name : String,
        get_dataset_collate_fn name = .imageCaptions
        ∨ get_dataset_collate_fn name = .defaultCollate)
    ∧ (∀ {α β : Type} (dc : List α → β) (batch : List (α × List String)),
        batch ≠ [] → (image_captions_collate_fn dc batch).isSome = true)
    ∧ (∀ {α β : Type} (dc : List α → β),
        image_captions_collate_fn dc ([] : List (α × List String)) = none) := by
  refine ⟨?_, ?_, ?_⟩
  · intro name
    unfold get_dataset_collate_fn
    by_cases hc : name = "mscoco_captions" ∨ name = "flickr30k" ∨ name = "flickr8k"
    · rw [if_pos hc]; exact Or.inl rfl
    · rw [if_neg hc]; exact Or.inr rfl
  · intro α β dc batch hb
    cases batch with
    | nil => exact absurd rfl hb
    | cons x xs => rfl
  · intro α β dc
    rfl

/-- Witness for C8 (amended) at a concrete singleton batch. -/
theorem collate_totality_amended_witness :
    (image_captions_collate_fn (fun l : List Nat => l) [(0, ["x"])]).isSome = true :=
  collate_totality_amended.2.1 (fun l : List Nat => l) [(0, ["x"])] (by decide)

set_option maxRecDepth 8192 in
/-- C9: every identifier whose classes are overridden from the curated
vocabulary store yields a handle whose classes length equals the documented
class count; in particular imagenet1k has 1000 class names and eurosat 10. -/
theorem overridden_classes_lengths
    (env : Env) (root split : String) (kwargs : List (String × String)) :
    (result_classes (build_dataset env "imagenet1k" root split none kwargs)).map List.length
      = some 1000
    ∧ (result_classes (build_dataset env "eurosat" root split none kwargs)).map List.length
      = some 10
    ∧ (result_classes (build_dataset env "mnist" root split none kwargs)).map List.length
      = some 10
    ∧ (result_classes (build_dataset env "gtsrb" root split none kwargs)).map List.length
      = some 43
    ∧ (result_classes (build_dataset env "country211" root split none kwargs)).map List.length
      = some 211
    ∧ (result_classes (build_dataset env "pcam" root split none kwargs)).map List.length
      = some 2
    ∧ (result_classes (build_dataset env "fer2013" root split none kwargs)).map List.length
      = some 7
    ∧ (result_classes (build_dataset env "caltech101" root split none kwargs)).map List.length
      = some 102
    ∧ (result_classes (build_dataset env "flowers" root split none kwargs)).map List.length
      = some 102 := by
  refine ⟨?_, ?_, ?_, ?_, ?_, ?_, ?_, ?_, ?_⟩ <;> rfl

/-- C10: calling `build_dataset` for a caption dataset with `annotation_file`
left at its default `None` raises `TypeError` at the `os.path.exists` check,
before anything is printed and before any backend construction or process
exit. -/
theorem caption_default_annotation_type_error
    (env : Env) (name root split : String) (kwargs : List (String × String))
    (h : name ∈ ["mscoco_captions", "flickr30k", "flickr8k"]) :
    build_dataset env name root split none kwargs = ⟨.typeError, []⟩ := by
  fin_cases h <;> rfl

/-- Witness for C10 at `"mscoco_captions"`. -/
theorem caption_default_annotation_type_error_witness :
    build_dataset ⟨fun _ => false, 0⟩ "mscoco_captions" "root" "test" none []
      = ⟨.typeError, []⟩ :=
  caption_default_annotation_type_error ⟨fun _ => false, 0⟩ "mscoco_captions" "root" "test" []
    (by decide)

end ClipBenchmark
